import Mathlib

/-!
# Verification of the csharp-rs-driver FFI core

Shallow embedding of the Rust FFI core of the csharp-driver repository:
the async task bridge (`src/rust/src/task.rs`), the ownership policies
(`src/rust/src/ffi.rs`), the row-set boundary functions
(`src/rust/src/row_set.rs`), the pre-serialized values containers
(`src/rust/src/pre_serialized_values/`) and the cell-writer boundary
functions (`src/rust/src/serialize.rs`).

Machine integers are modelled as `Nat`/`Int`; pointers as `Option` of an
address; fallible operations return `Except`/`Option`; a Rust `panic`
raised by `unwrap()` is modelled as the `Except.error` outcome of the
surrounding computation.
-/

set_option autoImplicit false

namespace CsharpRsDriver

/-! ## Async task bridge (`src/rust/src/task.rs`)

`BridgedFuture::spawn` awaits the future under `catch_unwind`, then matches
on the settlement: `Ok(Ok(res))` exports `res` through `ArcFFI` and invokes
the `complete_task` callback, `Ok(Err(err))` formats the error and invokes
`fail_task`, `Err(panic)` extracts a message from the panic payload and
invokes `fail_task`. Both failure branches build the message with
`CString::new(..).unwrap()`, which panics when the message contains an
interior NUL byte. -/

/-- A panic payload, as inspected by the `downcast_ref` chain in
`BridgedFuture::spawn`: a `&str`, a `String`, or anything else. -/
inductive PanicPayload where
  | strPayload (s : String)
  | stringPayload (s : String)
  | otherPayload
  deriving DecidableEq

/-- Message extraction from a panic payload, mirroring the
`downcast_ref::<&str>` / `downcast_ref::<String>` chain with its fixed
fallback message. -/
def panicMessage : PanicPayload → String
  | .strPayload s => s
  | .stringPayload s => s
  | .otherPayload => "Weird panic with non-string payload"

/-- `CString::new` succeeds exactly when the string has no interior NUL
byte; otherwise it returns an error (and the source's `.unwrap()` panics). -/
def cstringNew (s : String) : Option String :=
  if Char.ofNat 0 ∈ s.data then none else some s

/-- A callback invocation observed by the C# side: `complete` carries the
owned shared pointer exported from the `Ok` value (modelled by the value
itself), `fail` carries the formatted error message. -/
inductive CallbackEvent (T : Type) where
  | complete (res : T)
  | fail (msg : String)
  deriving DecidableEq

/-- How the awaited (catch_unwind-wrapped) future settled: `Ok(Ok(t))`,
`Ok(Err(e))`, or `Err(panic_payload)`. -/
inductive Settlement (T E : Type) where
  | ok (t : T)
  | err (e : E)
  | panicked (p : PanicPayload)
  deriving DecidableEq

/-- The settlement handler spawned by `BridgedFuture::spawn` onto the
runtime. Returns the list of callback invocations it performs, or
`Except.error ()` when it itself panics (the `CString::new(..).unwrap()`
on a message with an interior NUL byte), in which case no callback is
invoked. `fmt` is `E`'s `Display` implementation (`err.to_string()`). -/
def BridgedFuture.settle {T E : Type} (fmt : E → String) :
    Settlement T E → Except Unit (List (CallbackEvent T))
  | .ok t => .ok [.complete t]
  | .err e =>
    match cstringNew (fmt e) with
    | some m => .ok [.fail m]
    | none => .error ()
  | .panicked p =>
    match cstringNew (panicMessage p) with
    | some m => .ok [.fail m]
    | none => .error ()

/-- Counts how many `complete` invocations a callback trace contains. -/
def completeCount {T : Type} (events : List (CallbackEvent T)) : Nat :=
  (events.filter fun e => match e with | .complete _ => true | .fail _ => false).length

/-- Counts how many `fail` invocations a callback trace contains. -/
def failCount {T : Type} (events : List (CallbackEvent T)) : Nat :=
  (events.filter fun e => match e with | .complete _ => false | .fail _ => true).length

/-! ## Ownership policies (`src/rust/src/ffi.rs`)

A `BridgedPtr` is `repr(transparent)` over `Option<NonNull<T>>`: we model
it as `Option Addr` where `Addr := Nat` is a raw address. The shared-heap
(`ArcFFI`) discipline is modelled against an explicit reference-count
ledger `ArcState`: `strong a` is the strong count of the allocation at
address `a` (0 = deallocated) and `val a` its stored value (`none` once
deallocated). Each operation is a function of the ledger, mirroring the
count effect of the `Arc` primitive it calls. -/

/-- A raw address. -/
abbrev Addr := Nat

/-- Model of `BridgedPtr<T>`: `repr(transparent)` over `Option<NonNull<T>>`,
so a nullable address. `none` is the null pointer. -/
abbrev BridgedPtrM := Option Addr

/-- An immutable Rust reference `&T`, produced by `into_ref`: a view of the
allocation at `addr`. -/
structure RefM where
  addr : Addr
  deriving DecidableEq

/-- A mutable Rust reference `&mut T`, produced by `into_mut_ref`. -/
structure MutRefM where
  addr : Addr
  deriving DecidableEq

/-- `BridgedPtr::is_null`: true iff the underlying `Option<NonNull<T>>` is
`None`. -/
def BridgedPtrM.is_null (p : BridgedPtrM) : Bool := p.isNone

/-- `BridgedPtr::into_ref`: `self.ptr.map(|p| p.as_ref())` — maps the
nullable address to a nullable immutable reference, no dereference of null. -/
def BridgedPtrM.into_ref (p : BridgedPtrM) : Option RefM :=
  p.map fun a => ⟨a⟩

/-- `BridgedPtr::into_mut_ref`: `self.ptr.map(|mut p| p.as_mut())` — maps
the nullable address to a nullable mutable reference. -/
def BridgedPtrM.into_mut_ref (p : BridgedPtrM) : Option MutRefM :=
  p.map fun a => ⟨a⟩

/-- The global ledger of shared-heap (`Arc`) allocations holding values of
type `α`: per-address strong count and stored value. A live allocation has
`strong a > 0` and `val a = some v`; a deallocated address has
`strong a = 0` and `val a = none`. -/
@[ext]
structure ArcState (α : Type) where
  strong : Addr → Nat
  val : Addr → Option α

namespace ArcState

/-- `Arc::increment_strong_count` at address `a`. -/
def incr {α : Type} (s : ArcState α) (a : Addr) : ArcState α :=
  { s with strong := fun x => if x = a then s.strong x + 1 else s.strong x }

/-- Dropping one `Arc` handle on address `a`: decrements the strong count
and, when it reaches zero, deallocates the value. -/
def dropHandle {α : Type} (s : ArcState α) (a : Addr) : ArcState α :=
  { strong := fun x => if x = a then s.strong x - 1 else s.strong x,
    val := fun x => if x = a ∧ s.strong a - 1 = 0 then none else s.val x }

end ArcState

/-- `ArcFFI::into_ptr`: `Arc::into_raw(self)` — consumes the `Arc` handle
at address `a` and returns the owned shared pointer to it. `Arc::into_raw`
forgets the handle without touching the count, so the ledger is unchanged:
the pointer now carries the handle's count unit. -/
def ArcFFI.into_ptr {α : Type} (s : ArcState α) (a : Addr) :
    BridgedPtrM × ArcState α :=
  (some a, s)

/-- `ArcFFI::from_ptr`: `ptr.to_raw().map(Arc::from_raw)` — reconstructs an
owned `Arc` handle from an owned shared pointer, `None` on null.
`Arc::from_raw` does not touch the count (the pointer already represented
one count unit), so the ledger is unchanged. -/
def ArcFFI.from_ptr {α : Type} (s : ArcState α) (p : BridgedPtrM) :
    Option Addr × ArcState α :=
  match p with
  | none => (none, s)
  | some a => (some a, s)

/-- `ArcFFI::cloned_from_ptr`: on a non-null pointer,
`Arc::increment_strong_count(p)` followed by `Arc::from_raw(p)` — increments
the count and returns a fresh owned handle; `None` (ledger untouched) on
null. -/
def ArcFFI.cloned_from_ptr {α : Type} (s : ArcState α) (p : BridgedPtrM) :
    Option Addr × ArcState α :=
  match p with
  | none => (none, s)
  | some a => (some a, s.incr a)

/-- `ArcFFI::as_ref`: delegates to `BridgedPtr::into_ref`; never touches the
ledger. -/
def ArcFFI.as_ref (p : BridgedPtrM) : Option RefM :=
  p.into_ref

/-- `ArcFFI::free`: `drop(ArcFFI::from_ptr(ptr))` — reconstructs the `Arc`
handle from the owned pointer and drops it (decrement, deallocate at zero);
a null pointer maps to `None`, whose drop is a no-op. -/
def ArcFFI.free {α : Type} (s : ArcState α) (p : BridgedPtrM) : ArcState α :=
  match p with
  | none => s
  | some a => s.dropHandle a

/-- `Weak::upgrade` on a weak handle to address `a`: succeeds (returning a
fresh strong handle, count incremented) iff the strong count is still
positive; otherwise fails with the ledger untouched. -/
def weakUpgrade {α : Type} (s : ArcState α) (a : Addr) :
    Option Addr × ArcState α :=
  if s.strong a > 0 then (some a, s.incr a) else (none, s)

/-- `RefFFI::weak_as_ptr`: `match w.upgrade() { Some(a) =>
BridgedPtr::from_raw(Arc::as_ptr(&a)), None => BridgedPtr::null() }`. The
temporary strong handle `a` is dropped at the end of the `Some` arm, so the
net effect on the ledger is restored there. -/
def RefFFI.weak_as_ptr {α : Type} (s : ArcState α) (w : Addr) :
    BridgedPtrM × ArcState α :=
  match weakUpgrade s w with
  | (some a, s1) => (some a, s1.dropHandle a)
  | (none, s1) => (none, s1)

/-- `RefFFI::as_ref`: delegates to `BridgedPtr::into_ref`. -/
def RefFFI.as_ref (p : BridgedPtrM) : Option RefM :=
  p.into_ref

/-- `BoxFFI::from_ptr`: `ptr.to_raw().map(Box::from_raw)` — reconstructs the
owned `Box` handle from an owned exclusive pointer, `None` on null; no
dereference happens. -/
def BoxFFI.from_ptr (p : BridgedPtrM) : Option Addr :=
  match p with
  | none => none
  | some a => some a

/-- `BoxFFI::as_ref`: delegates to `BridgedPtr::into_ref`. -/
def BoxFFI.as_ref (p : BridgedPtrM) : Option RefM :=
  p.into_ref

/-- `BoxFFI::as_mut_ref`: delegates to `BridgedPtr::into_mut_ref`. -/
def BoxFFI.as_mut_ref (p : BridgedPtrM) : Option MutRefM :=
  p.into_mut_ref

/-! ## Row-set boundary functions (`src/rust/src/row_set.rs`)

`row_set_get_columns_count` does `ArcFFI::as_ref(row_set_ptr).unwrap()`,
which panics on a null row-set handle; the type-info accessors instead
start with an explicit `is_null` check and return the integer code 0.
A panic escaping a boundary function is modelled as `Except.error ()`. -/

/-- The `ColumnType` variants distinguished by the row-set type-info
accessors: only `tuple` carries the field list used by
`row_set_type_info_get_tuple_field`. -/
inductive ColumnTypeM where
  | native
  | collection
  | vector
  | udt
  | tuple (fields : List ColumnTypeM)

/-- Model of `RowSet`: the pager's column specifications (only their count
matters to `row_set_get_columns_count`). -/
structure RowSetM where
  columnSpecs : List ColumnTypeM

/-- `row_set_get_columns_count`: `ArcFFI::as_ref(row_set_ptr).unwrap()`
followed by `pager.column_specs().len()`. The `.unwrap()` panics
(`Except.error ()`) when the handle is null; a dangling non-null handle is
a `from_raw` precondition violation, also modelled as an escaping fault.
`heap` maps each live row-set address to its row set. -/
def row_set_get_columns_count (heap : Addr → Option RowSetM)
    (row_set_ptr : BridgedPtrM) : Except Unit Nat :=
  match ArcFFI.as_ref row_set_ptr with
  | none => .error ()
  | some r =>
    match heap r.addr with
    | none => .error ()
    | some rs => .ok rs.columnSpecs.length

/-- `row_set_type_info_get_tuple_field`: returns 0 on a null type-info
handle, a non-`Tuple` type, an out-of-range index, or a null output
pointer; otherwise writes a clone of the selected field through the output
pointer and returns 1. The result pairs the returned integer code with the
value written through `out_field_handle` (`none` when nothing is written).
`heap` maps each live boxed `ColumnType` address to its value. -/
def row_set_type_info_get_tuple_field (heap : Addr → Option ColumnTypeM)
    (type_info_handle : BridgedPtrM) (index : Nat) (outIsNull : Bool) :
    Except Unit (Int × Option ColumnTypeM) :=
  if type_info_handle.is_null then .ok (0, none)
  else
    match BoxFFI.as_ref type_info_handle with
    | none => .error ()
    | some r =>
      match heap r.addr with
      | none => .error ()
      | some t =>
        match t with
        | .tuple fields =>
          if hlt : index < fields.length then
            if outIsNull then .ok (0, none)
            else .ok (1, some (fields.get ⟨index, hlt⟩))
          else .ok (0, none)
        | _ => .ok (0, none)

/-! ## Pre-serialized values (`src/rust/src/pre_serialized_values/`)

`SafePreSerializedValues` stores copied byte vectors, nulls and unsets;
`UnsafePreSerializedValues` stores raw `(ptr, len)` pairs resolved against
the caller-pinned memory at serialization time. Both serialize through
`serialize_each_cell`: validate the value count against the context, then
write one cell per value in order, stopping at the first cell error. The
written cells accumulate in the `RowWriter`, modelled as the list of cells
written so far. -/

/-- A cell of `SafePreSerializedValues`: copied bytes, null, or unset. -/
inductive SafeCell where
  | bytes (b : List (Fin 256))
  | null
  | unset

/-- A cell of `UnsafePreSerializedValues`: a raw `(ptr, len)` pair, null,
or unset. -/
inductive UnsafeCellM where
  | bytes (ptr len : Nat)
  | null
  | unset

/-- A cell as recorded in the `RowWriter`: a value, a null, or an unset. -/
inductive WrittenCell where
  | value (b : List (Fin 256))
  | null
  | unset

/-- The serialization errors produced by this module: `TooManyValues`,
`WrongColumnCount { rust_cols, cql_cols }`, and the `CellOverflowError`
from `CellWriter::set_value`. -/
inductive SerError where
  | tooManyValues
  | wrongColumnCount (rust_cols cql_cols : Nat)
  | cellOverflow

/-- `MAX_VALUES_LENGTH`: `u16::MAX as usize`. -/
def MAX_VALUES_LENGTH : Nat := 65535

/-- `i32::MAX`. -/
def I32_MAX : Nat := 2147483647

/-- `validate_number_of_columns`: error when the value count exceeds
`MAX_VALUES_LENGTH` or differs from the context's column count. -/
def validate_number_of_columns (rust_cols cql_cols : Nat) :
    Except SerError Unit :=
  if rust_cols > MAX_VALUES_LENGTH then .error .tooManyValues
  else if rust_cols ≠ cql_cols then
    .error (.wrongColumnCount rust_cols cql_cols)
  else .ok ()

/-- `CellWriter::set_value`: records the bytes as a value cell, or fails
with `CellOverflowError` when the value size exceeds `i32::MAX`. -/
def cellWriterSetValueCell (b : List (Fin 256)) : Except SerError WrittenCell :=
  if b.length > I32_MAX then .error .cellOverflow else .ok (.value b)

/-- The closure `SafePreSerializedValues::serialize` passes to
`serialize_each_cell`: `set_value` for bytes, `set_null` for null,
`set_unset` for unset. -/
def writeSafeCell : SafeCell → Except SerError WrittenCell
  | .bytes b => cellWriterSetValueCell b
  | .null => .ok .null
  | .unset => .ok .unset

/-- Reading `len` bytes starting at `ptr` from the caller-pinned memory
`mem` (`slice::from_raw_parts`). -/
def readBytes (mem : Nat → Fin 256) (ptr len : Nat) : List (Fin 256) :=
  (List.range len).map fun i => mem (ptr + i)

/-- The closure `UnsafePreSerializedValues::serialize` passes to
`serialize_each_cell`: resolves the `(ptr, len)` pair against memory, then
`set_value`. -/
def writeUnsafeCell (mem : Nat → Fin 256) : UnsafeCellM → Except SerError WrittenCell
  | .bytes ptr len => cellWriterSetValueCell (readBytes mem ptr len)
  | .null => .ok .null
  | .unset => .ok .unset

/-- The cell loop of `serialize_each_cell`: writes one cell per value into
the writer (appending, in order), returning the first error and leaving
the cells already written in place. -/
def serializeCellLoop {C : Type} (write : C → Except SerError WrittenCell) :
    List C → List WrittenCell → List WrittenCell × Option SerError
  | [], writer => (writer, none)
  | c :: rest, writer =>
    match write c with
    | .ok w => serializeCellLoop write rest (writer ++ [w])
    | .error e => (writer, some e)

/-- `serialize_each_cell`: validate the count, then run the cell loop. On a
validation error nothing is written. -/
def serialize_each_cell {C : Type} (write : C → Except SerError WrittenCell)
    (cells : List C) (cql_cols : Nat) (writer : List WrittenCell) :
    List WrittenCell × Option SerError :=
  match validate_number_of_columns cells.length cql_cols with
  | .error e => (writer, some e)
  | .ok _ => serializeCellLoop write cells writer

/-- `SafePreSerializedValues::serialize`: `serialize_each_cell` with the
safe-cell closure. -/
def SafePreSerializedValues.serialize (cells : List SafeCell) (cql_cols : Nat)
    (writer : List WrittenCell) : List WrittenCell × Option SerError :=
  serialize_each_cell writeSafeCell cells cql_cols writer

/-- `UnsafePreSerializedValues::serialize`: validates the count, then calls
`serialize_each_cell` (which validates again) with the unsafe-cell closure. -/
def UnsafePreSerializedValues.serialize (mem : Nat → Fin 256)
    (cells : List UnsafeCellM) (cql_cols : Nat) (writer : List WrittenCell) :
    List WrittenCell × Option SerError :=
  match validate_number_of_columns cells.length cql_cols with
  | .error e => (writer, some e)
  | .ok _ => serialize_each_cell (writeUnsafeCell mem) cells cql_cols writer

/-! ## Cell-writer boundary function (`src/rust/src/serialize.rs`) -/

/-- `cell_writer_set_value(writer, data, len)`: returns 0 when the writer
pointer is null, 0 when the data pointer is null while `len > 0`; otherwise
the contents are the empty slice when `len = 0` and the `len` pointed-to
bytes when `len > 0`, and `CellWriter::set_value` yields 1 on success or -1
when the value size (`len`) exceeds `i32::MAX`. -/
def cell_writer_set_value (writerIsNull dataIsNull : Bool) (len : Nat) : Int :=
  if writerIsNull then 0
  else if dataIsNull && decide (len > 0) then 0
  else if len > I32_MAX then -1
  else 1

/-! ## Derived definitions and concrete instances used by the theorems -/

/-- A concrete ledger: address 0 holds value 42 with strong count 1;
every other address is dead. -/
def arcStateOne : ArcState Nat :=
  { strong := fun x => if x = 0 then 1 else 0,
    val := fun x => if x = 0 then some 42 else none }

/-- A concrete ledger with no live allocation at all. -/
def arcStateDead : ArcState Nat :=
  { strong := fun _ => 0, val := fun _ => none }

/-- A message whose text contains an interior NUL byte ("bo\x00om"):
`CString::new` rejects it, so the source's `.unwrap()` panics. -/
def nulMessage : String :=
  String.mk ['b', 'o', Char.ofNat 0, 'o', 'm']

/-- The cell a safe value maps to when its write succeeds. -/
def SafeCell.toWritten : SafeCell → WrittenCell
  | .bytes b => .value b
  | .null => .null
  | .unset => .unset

/-- A safe cell whose write cannot overflow: its byte size is at most
`i32::MAX`. -/
def SafeCell.sizeOk : SafeCell → Prop
  | .bytes b => b.length ≤ I32_MAX
  | .null => True
  | .unset => True

instance : DecidablePred SafeCell.sizeOk := fun c => by
  cases c <;> simp only [SafeCell.sizeOk] <;> infer_instance

/-- The cell an unsafe value maps to when its write succeeds: the `(ptr,
len)` pair resolved against the caller-pinned memory. -/
def UnsafeCellM.toWritten (mem : Nat → Fin 256) : UnsafeCellM → WrittenCell
  | .bytes ptr len => .value (readBytes mem ptr len)
  | .null => .null
  | .unset => .unset

/-- An unsafe cell whose write cannot overflow: its recorded length is at
most `i32::MAX`. -/
def UnsafeCellM.sizeOk : UnsafeCellM → Prop
  | .bytes _ len => len ≤ I32_MAX
  | .null => True
  | .unset => True

instance : DecidablePred UnsafeCellM.sizeOk := fun c => by
  cases c <;> simp only [UnsafeCellM.sizeOk] <;> infer_instance

/-! ## Helper lemmas -/

/-- Incrementing the strong count of a live allocation and then dropping
one handle on it restores the ledger exactly (the intermediate count is at
least 2, so the drop neither reaches zero nor deallocates). -/
theorem ArcState.dropHandle_incr {α : Type} (s : ArcState α) (a : Addr)
    (h : 0 < s.strong a) : (s.incr a).dropHandle a = s := by
  ext x
  · simp only [ArcState.incr, ArcState.dropHandle]
    by_cases hx : x = a <;> simp [hx]
  · simp only [ArcState.incr, ArcState.dropHandle]
    by_cases hx : x = a <;> simp [hx]
    omega

/-! ## Claim theorems -/

/-- **C3** — Shared-heap round-trip: exporting a live shared allocation
(`ArcFFI::into_ptr`) and importing the produced pointer
(`ArcFFI::from_ptr`) yields `some` of the same allocation (same address,
hence observably identical), and neither step changes the reference-count
ledger. -/
theorem arc_export_import_roundtrip {α : Type} (s : ArcState α) (a : Addr) :
    (ArcFFI.into_ptr s a).2 = s ∧
    (ArcFFI.from_ptr (ArcFFI.into_ptr s a).2 (ArcFFI.into_ptr s a).1).1 =
      some a ∧
    (ArcFFI.from_ptr (ArcFFI.into_ptr s a).2 (ArcFFI.into_ptr s a).1).2 = s :=
  ⟨rfl, rfl, rfl⟩

/-- **C4** — Shared-heap count neutrality of clone-then-free: on a live
allocation, `ArcFFI::cloned_from_ptr` returns `some` of the allocation and
increments its strong count by exactly one, and `ArcFFI::free` of the
pointer exported from that clone restores the ledger exactly (decrement by
one, no deallocation). -/
theorem arc_clone_then_free_count_neutral {α : Type} (s : ArcState α)
    (a : Addr) (h : 0 < s.strong a) :
    (ArcFFI.cloned_from_ptr s (some a)).1 = some a ∧
    ((ArcFFI.cloned_from_ptr s (some a)).2).strong a = s.strong a + 1 ∧
    ArcFFI.free ((ArcFFI.cloned_from_ptr s (some a)).2)
      (ArcFFI.into_ptr ((ArcFFI.cloned_from_ptr s (some a)).2) a).1 = s := by
  refine ⟨rfl, by simp [ArcFFI.cloned_from_ptr, ArcState.incr], ?_⟩
  exact ArcState.dropHandle_incr s a h

/-- Witness for the C4 theorem at the concrete one-allocation ledger. -/
theorem arc_clone_then_free_count_neutral_witness :
    (ArcFFI.cloned_from_ptr arcStateOne (some 0)).1 = some 0 ∧
    ((ArcFFI.cloned_from_ptr arcStateOne (some 0)).2).strong 0 =
      arcStateOne.strong 0 + 1 ∧
    ArcFFI.free ((ArcFFI.cloned_from_ptr arcStateOne (some 0)).2)
      (ArcFFI.into_ptr ((ArcFFI.cloned_from_ptr arcStateOne (some 0)).2) 0).1 =
      arcStateOne :=
  arc_clone_then_free_count_neutral arcStateOne 0 (by decide)

/-- **C5** — Null uniformity of the policy operations: every pointer-taking
policy/view operation, invoked on the null Bridged Pointer, returns the
absent result (`none`) and leaves the shared-heap ledger untouched; none of
them dereferences. -/
theorem policy_ops_null_uniform {α : Type} (s : ArcState α) :
    BoxFFI.from_ptr none = none ∧
    BoxFFI.as_ref none = none ∧
    BoxFFI.as_mut_ref none = none ∧
    ArcFFI.from_ptr s none = (none, s) ∧
    ArcFFI.cloned_from_ptr s none = (none, s) ∧
    ArcFFI.as_ref none = none ∧
    RefFFI.as_ref none = none ∧
    BridgedPtrM.into_ref none = none ∧
    BridgedPtrM.into_mut_ref none = none :=
  ⟨rfl, rfl, rfl, rfl, rfl, rfl, rfl, rfl, rfl⟩

/-- **C7** — `RefFFI::weak_as_ptr` returns the null pointer when the weak
handle has expired (strong count zero), never a dangling non-null pointer;
on a still-live referent it returns a non-null pointer to that referent,
and the temporary upgrade is fully undone (ledger restored). -/
theorem weak_as_ptr_null_iff_expired {α : Type} (s : ArcState α) (w : Addr) :
    (s.strong w = 0 → RefFFI.weak_as_ptr s w = (none, s)) ∧
    (0 < s.strong w →
      (RefFFI.weak_as_ptr s w).1 = some w ∧
      (RefFFI.weak_as_ptr s w).2 = s) := by
  constructor
  · intro h
    simp [RefFFI.weak_as_ptr, weakUpgrade, h]
  · intro h
    refine ⟨?_, ?_⟩ <;> simp [RefFFI.weak_as_ptr, weakUpgrade, h]
    exact ArcState.dropHandle_incr s w h

/-- Witness for the C7 theorem: an expired weak handle on the dead ledger
yields null; a live weak handle on the one-allocation ledger yields a
non-null pointer to address 0 and restores the ledger. -/
theorem weak_as_ptr_null_iff_expired_witness :
    RefFFI.weak_as_ptr arcStateDead 0 = (none, arcStateDead) ∧
    ((RefFFI.weak_as_ptr arcStateOne 0).1 = some 0 ∧
      (RefFFI.weak_as_ptr arcStateOne 0).2 = arcStateOne) :=
  ⟨(weak_as_ptr_null_iff_expired arcStateDead 0).1 rfl,
   (weak_as_ptr_null_iff_expired arcStateOne 0).2 (by decide)⟩

/-- **C1** — Exactly one of {complete, fail} per Task Control Block: the
settlement handler invokes `complete` exactly once on `Ok` and `fail`
exactly once on `Err`, but on a domain error whose formatted message
contains an interior NUL byte, `CString::new(err.to_string()).unwrap()`
panics and *neither* callback is invoked — the code violates the claim at
that input. -/
theorem spawn_no_callback_on_nul_error_message :
    @BridgedFuture.settle Nat String id (.ok 42) = .ok [.complete 42] ∧
    @BridgedFuture.settle Nat String id (.err "boom") = .ok [.fail "boom"] ∧
    @BridgedFuture.settle Nat String id (.err nulMessage) = .error () :=
  ⟨rfl, rfl, rfl⟩

/-- **C2** — Panic reporting: a caught panic with a `&str` payload `"boom"`
makes the handler invoke `fail` exactly once with exactly that message and
`complete` never; a non-string payload produces the fixed fallback message;
but a panic payload containing an interior NUL byte makes
`CString::new(panic_msg).unwrap()` panic again, so *no* callback is invoked
— the code violates the claim at that input. -/
theorem spawn_panic_reported_unless_nul_payload :
    @BridgedFuture.settle Nat String id (.panicked (.strPayload "boom")) =
      .ok [.fail "boom"] ∧
    @BridgedFuture.settle Nat String id (.panicked (.stringPayload "boom")) =
      .ok [.fail "boom"] ∧
    @BridgedFuture.settle Nat String id (.panicked .otherPayload) =
      .ok [.fail "Weird panic with non-string payload"] ∧
    @BridgedFuture.settle Nat String id (.panicked (.strPayload nulMessage)) =
      .error () :=
  ⟨rfl, rfl, rfl, rfl⟩

/-- **C6** — Boundary-shape errors and the 0/1 convention: a null type-info
handle, an out-of-range tuple index, and a null output pointer are all
reported by `row_set_type_info_get_tuple_field` as integer code 0, but
`row_set_get_columns_count` invoked with a null row-set handle panics
(`ArcFFI::as_ref(row_set_ptr).unwrap()` on `None`) instead of reporting —
the code violates the claim at that input. -/
theorem row_set_null_handle_panics_but_type_info_reports :
    row_set_get_columns_count (fun _ => none) none = .error () ∧
    row_set_type_info_get_tuple_field (fun _ => none) none 0 false =
      .ok (0, none) ∧
    row_set_type_info_get_tuple_field
      (fun x => if x = 0 then some (.tuple [.native]) else none)
      (some 0) 5 false = .ok (0, none) ∧
    row_set_type_info_get_tuple_field
      (fun x => if x = 0 then some (.tuple [.native]) else none)
      (some 0) 0 true = .ok (0, none) ∧
    row_set_type_info_get_tuple_field
      (fun x => if x = 0 then some (.tuple [.native]) else none)
      (some 0) 0 false = .ok (1, some .native) := by
  refine ⟨rfl, rfl, ?_, ?_, ?_⟩ <;>
    simp [row_set_type_info_get_tuple_field, BoxFFI.as_ref,
      BridgedPtrM.into_ref, BridgedPtrM.is_null]

/-- A safe write succeeds, with the expected written cell, exactly on
size-ok cells. -/
theorem writeSafeCell_of_sizeOk (c : SafeCell) (h : c.sizeOk) :
    writeSafeCell c = .ok c.toWritten := by
  cases c with
  | bytes b =>
    simp only [SafeCell.sizeOk] at h
    simp [writeSafeCell, cellWriterSetValueCell, SafeCell.toWritten,
      Nat.not_lt.mpr h]
  | null => rfl
  | unset => rfl

/-- An unsafe write succeeds, with the expected written cell, exactly on
size-ok cells. -/
theorem writeUnsafeCell_of_sizeOk (mem : Nat → Fin 256) (c : UnsafeCellM)
    (h : c.sizeOk) : writeUnsafeCell mem c = .ok (c.toWritten mem) := by
  cases c with
  | bytes ptr len =>
    simp only [UnsafeCellM.sizeOk] at h
    have hlen : (readBytes mem ptr len).length = len := by
      simp [readBytes]
    simp [writeUnsafeCell, cellWriterSetValueCell, UnsafeCellM.toWritten,
      hlen, Nat.not_lt.mpr h]
  | null => rfl
  | unset => rfl

/-- When every cell's write succeeds, the cell loop appends exactly one
written cell per value, in order, and reports no error. -/
theorem serializeCellLoop_all_ok {C : Type}
    (write : C → Except SerError WrittenCell) (toW : C → WrittenCell)
    (cells : List C) (writer : List WrittenCell)
    (h : ∀ c ∈ cells, write c = .ok (toW c)) :
    serializeCellLoop write cells writer = (writer ++ cells.map toW, none) := by
  induction cells generalizing writer with
  | nil => simp [serializeCellLoop]
  | cons c rest ih =>
    have hc : write c = .ok (toW c) := h c (List.mem_cons_self c rest)
    rw [serializeCellLoop, hc]
    show serializeCellLoop write rest (writer ++ [toW c]) = _
    rw [ih (writer ++ [toW c]) fun d hd => h d (List.mem_cons_of_mem c hd)]
    simp

/-- Serializing a single oversized byte value against a matching 1-column
context fails with `CellOverflowError`, leaving the writer untouched. -/
theorem serialize_single_oversized (b : List (Fin 256))
    (w : List WrittenCell) (hb : b.length > I32_MAX) :
    SafePreSerializedValues.serialize [SafeCell.bytes b] 1 w =
      (w, some .cellOverflow) := by
  have hv : validate_number_of_columns [SafeCell.bytes b].length 1 =
      .ok () := rfl
  simp only [SafePreSerializedValues.serialize, serialize_each_cell, hv]
  simp [serializeCellLoop, writeSafeCell, cellWriterSetValueCell, hb]

/-- **C9 (counterexample)** — The implicit claim says that whenever the
value count is within `u16::MAX` and matches the context's column count,
serialization writes exactly one cell per added value. A single added value
of `2^31` bytes satisfies both count conditions, yet
`CellWriter::set_value` fails with `CellOverflowError` and no cell is
written. -/
theorem pre_serialized_values_overflow_counterexample :
    [SafeCell.bytes (List.replicate 2147483648 0)].length = 1 ∧
    1 ≤ MAX_VALUES_LENGTH ∧
    SafePreSerializedValues.serialize
      [SafeCell.bytes (List.replicate 2147483648 0)] 1 [] =
      ([], some .cellOverflow) := by
  refine ⟨rfl, by norm_num [MAX_VALUES_LENGTH], ?_⟩
  refine serialize_single_oversized _ [] ?_
  rw [List.length_replicate]
  norm_num [I32_MAX]

/-- **C9 (amended)** — Serializing a `PreSerializedValues` container (safe
or unsafe variant) returns an error with no cell written when the number of
added values exceeds `u16::MAX` or differs from the context's column count;
otherwise, provided every added byte value's size is at most `i32::MAX`, it
writes exactly one cell per added value, in order (Bytes as a value, Null
as null, Unset as unset). -/
theorem pre_serialized_values_serialize_spec (cells : List SafeCell)
    (mem : Nat → Fin 256) (ucells : List UnsafeCellM) (cql_cols : Nat)
    (writer : List WrittenCell) :
    (cells.length > MAX_VALUES_LENGTH →
      SafePreSerializedValues.serialize cells cql_cols writer =
        (writer, some .tooManyValues)) ∧
    (cells.length ≤ MAX_VALUES_LENGTH → cells.length ≠ cql_cols →
      SafePreSerializedValues.serialize cells cql_cols writer =
        (writer, some (.wrongColumnCount cells.length cql_cols))) ∧
    (cells.length ≤ MAX_VALUES_LENGTH → cells.length = cql_cols →
      (∀ c ∈ cells, c.sizeOk) →
      SafePreSerializedValues.serialize cells cql_cols writer =
        (writer ++ cells.map SafeCell.toWritten, none)) ∧
    (ucells.length > MAX_VALUES_LENGTH →
      UnsafePreSerializedValues.serialize mem ucells cql_cols writer =
        (writer, some .tooManyValues)) ∧
    (ucells.length ≤ MAX_VALUES_LENGTH → ucells.length ≠ cql_cols →
      UnsafePreSerializedValues.serialize mem ucells cql_cols writer =
        (writer, some (.wrongColumnCount ucells.length cql_cols))) ∧
    (ucells.length ≤ MAX_VALUES_LENGTH → ucells.length = cql_cols →
      (∀ c ∈ ucells, c.sizeOk) →
      UnsafePreSerializedValues.serialize mem ucells cql_cols writer =
        (writer ++ ucells.map (UnsafeCellM.toWritten mem), none)) := by
  refine ⟨?_, ?_, ?_, ?_, ?_, ?_⟩
  · intro h
    simp [SafePreSerializedValues.serialize, serialize_each_cell,
      validate_number_of_columns, h]
  · intro h1 h2
    simp [SafePreSerializedValues.serialize, serialize_each_cell,
      validate_number_of_columns, Nat.not_lt.mpr h1, h2]
  · intro h1 h2 h3
    rw [SafePreSerializedValues.serialize, serialize_each_cell]
    rw [validate_number_of_columns, if_neg (Nat.not_lt.mpr h1), if_neg
      (by simpa using h2)]
    exact serializeCellLoop_all_ok writeSafeCell SafeCell.toWritten cells
      writer fun c hc => writeSafeCell_of_sizeOk c (h3 c hc)
  · intro h
    simp [UnsafePreSerializedValues.serialize, serialize_each_cell,
      validate_number_of_columns, h]
  · intro h1 h2
    simp [UnsafePreSerializedValues.serialize, serialize_each_cell,
      validate_number_of_columns, Nat.not_lt.mpr h1, h2]
  · intro h1 h2 h3
    rw [UnsafePreSerializedValues.serialize]
    rw [validate_number_of_columns, if_neg (Nat.not_lt.mpr h1), if_neg
      (by simpa using h2)]
    rw [serialize_each_cell]
    rw [validate_number_of_columns, if_neg (Nat.not_lt.mpr h1), if_neg
      (by simpa using h2)]
    exact serializeCellLoop_all_ok (writeUnsafeCell mem)
      (UnsafeCellM.toWritten mem) ucells writer
      fun c hc => writeUnsafeCell_of_sizeOk mem c (h3 c hc)

/-- Witness for the C9 amended theorem: three small values (two bytes, a
null, an unset would be four — here bytes/null/unset) against a 3-column
context serialize to exactly three cells in order; a 2-value container
against a 3-column context errors with the count mismatch. -/
theorem pre_serialized_values_serialize_spec_witness :
    SafePreSerializedValues.serialize
      [SafeCell.bytes [1, 2], SafeCell.null, SafeCell.unset] 3 [] =
      ([WrittenCell.value [1, 2], WrittenCell.null, WrittenCell.unset],
        none) ∧
    SafePreSerializedValues.serialize [SafeCell.null, SafeCell.null] 3 [] =
      ([], some (.wrongColumnCount 2 3)) ∧
    UnsafePreSerializedValues.serialize (fun _ => 7)
      [UnsafeCellM.bytes 0 2, UnsafeCellM.null] 2 [] =
      ([WrittenCell.value [7, 7], WrittenCell.null], none) := by
  refine ⟨?_, ?_, ?_⟩
  · have := (pre_serialized_values_serialize_spec
      [SafeCell.bytes [1, 2], SafeCell.null, SafeCell.unset] (fun _ => 7)
      [] 3 []).2.2.1 (by decide) (by decide) (by decide)
    simpa [SafeCell.toWritten] using this
  · exact (pre_serialized_values_serialize_spec
      [SafeCell.null, SafeCell.null] (fun _ => 7) [] 3 []).2.1
      (by decide) (by decide)
  · have := (pre_serialized_values_serialize_spec [] (fun _ => 7)
      [UnsafeCellM.bytes 0 2, UnsafeCellM.null] 2 []).2.2.2.2.2
      (by decide) (by decide) (by decide)
    simpa [UnsafeCellM.toWritten, readBytes, List.range_succ] using this

/-- **C10** — `cell_writer_set_value` return codes: 0 on a null writer; 0 on
a null data pointer with positive length; otherwise 1 when the value size
is within `i32::MAX` and -1 (a third code, outside the 0/1 convention) when
it exceeds `i32::MAX`; a null data pointer with length zero is accepted as
an empty value and returns 1. -/
theorem cell_writer_set_value_codes (wn dn : Bool) (len : Nat) :
    (wn = true → cell_writer_set_value wn dn len = 0) ∧
    (wn = false → dn = true → 0 < len →
      cell_writer_set_value wn dn len = 0) ∧
    (wn = false → (dn = false ∨ len = 0) → len ≤ I32_MAX →
      cell_writer_set_value wn dn len = 1) ∧
    (wn = false → (dn = false ∨ len = 0) → I32_MAX < len →
      cell_writer_set_value wn dn len = -1) ∧
    (wn = false → dn = true → len = 0 →
      cell_writer_set_value wn dn len = 1) := by
  refine ⟨?_, ?_, ?_, ?_, ?_⟩
  · intro h1
    simp [cell_writer_set_value, h1]
  · intro h1 h2 h3
    simp [cell_writer_set_value, h1, h2, h3]
  · rintro h1 (h2 | h2) h3 <;>
      simp [cell_writer_set_value, h1, h2, Nat.not_lt.mpr h3]
  · rintro h1 (h2 | h2) h3
    · simp [cell_writer_set_value, h1, h2, h3]
    · subst h2
      simp [I32_MAX] at h3
  · intro h1 h2 h3
    subst h3
    simp [cell_writer_set_value, h1, h2, I32_MAX]

/-- Witness for the C10 theorem at concrete inputs covering all five
return-code clauses. -/
theorem cell_writer_set_value_codes_witness :
    cell_writer_set_value true false 5 = 0 ∧
    cell_writer_set_value false true 5 = 0 ∧
    cell_writer_set_value false false 5 = 1 ∧
    cell_writer_set_value false false 2147483648 = -1 ∧
    cell_writer_set_value false true 0 = 1 :=
  ⟨(cell_writer_set_value_codes true false 5).1 rfl,
   (cell_writer_set_value_codes false true 5).2.1 rfl rfl (by norm_num),
   (cell_writer_set_value_codes false false 5).2.2.1 rfl (Or.inl rfl)
     (by norm_num [I32_MAX]),
   (cell_writer_set_value_codes false false 2147483648).2.2.2.1 rfl
     (Or.inl rfl) (by norm_num [I32_MAX]),
   (cell_writer_set_value_codes false true 0).2.2.2.2 rfl rfl rfl⟩

end CsharpRsDriver
